import Mathlib

/-!
# Verification of the drag-to-impulse controller (`src/main.rs`)

Shallow embedding of the drag-session lifecycle and the per-tick
`drag_system` of the bevy dragging test program.  Scalars are modelled as
exact rationals (`ℚ`); the `f32` square root used only inside the zoom
factor is threaded through as a function parameter `len`, since no claim
depends on its value.  A separate extended-value arithmetic (`F`) models
the IEEE special values (infinities, NaN) exactly, for the degenerate
`project_onto` path, where no rounding occurs.  Panics (`.expect`,
`.unwrap`) are modelled as `Except.error` carrying the panic message.
-/

/-! ## Vectors, matrices, affine transforms -/

/-- 2-vector over ℚ; models `glam::Vec2`. -/
structure Vec2 where
  x : ℚ
  y : ℚ
deriving DecidableEq, Repr

/-- 3-vector over ℚ; models `glam::Vec3`. -/
structure Vec3 where
  x : ℚ
  y : ℚ
  z : ℚ
deriving DecidableEq, Repr

def Vec3.add (a b : Vec3) : Vec3 := ⟨a.x + b.x, a.y + b.y, a.z + b.z⟩

def Vec3.sub (a b : Vec3) : Vec3 := ⟨a.x - b.x, a.y - b.y, a.z - b.z⟩

def Vec3.neg (a : Vec3) : Vec3 := ⟨-a.x, -a.y, -a.z⟩

/-- Scalar multiplication (`Vec3 * f32` / `f32 * Vec3` in glam). -/
def Vec3.smul (q : ℚ) (a : Vec3) : Vec3 := ⟨q * a.x, q * a.y, q * a.z⟩

def Vec3.dot (a b : Vec3) : ℚ := a.x * b.x + a.y * b.y + a.z * b.z

/-- `glam::Vec3::cross`. -/
def Vec3.cross (a b : Vec3) : Vec3 :=
  ⟨a.y * b.z - a.z * b.y, a.z * b.x - a.x * b.z, a.x * b.y - a.y * b.x⟩

/-- `glam::Vec3::clamp`, component-wise: `self.max(min).min(max)`. -/
def Vec3.clamp (v lo hi : Vec3) : Vec3 :=
  ⟨min (max v.x lo.x) hi.x, min (max v.y lo.y) hi.y, min (max v.z lo.z) hi.z⟩

/-- `glam::Vec3::project_onto`: `rhs * (self.dot(rhs) / rhs.dot(rhs))`.
In ℚ a division by zero yields `0`; the genuine IEEE behaviour of the
zero-denominator case is modelled separately by `VecF.projectOntoF`. -/
def Vec3.projectOnto (v rhs : Vec3) : Vec3 := Vec3.smul (Vec3.dot v rhs / Vec3.dot rhs rhs) rhs

def Vec3.zero : Vec3 := ⟨0, 0, 0⟩

def Vec3.negOne : Vec3 := ⟨-1, -1, -1⟩

def Vec3.one : Vec3 := ⟨1, 1, 1⟩

/-- 3×3 matrix over ℚ (row `r`, column `c` written `mrc`); models the
linear part of `glam::Affine3A`. -/
structure Mat3 where
  m00 : ℚ
  m01 : ℚ
  m02 : ℚ
  m10 : ℚ
  m11 : ℚ
  m12 : ℚ
  m20 : ℚ
  m21 : ℚ
  m22 : ℚ
deriving DecidableEq, Repr

def Mat3.mulVec (m : Mat3) (v : Vec3) : Vec3 :=
  ⟨m.m00 * v.x + m.m01 * v.y + m.m02 * v.z,
   m.m10 * v.x + m.m11 * v.y + m.m12 * v.z,
   m.m20 * v.x + m.m21 * v.y + m.m22 * v.z⟩

def Mat3.det (m : Mat3) : ℚ :=
  m.m00 * (m.m11 * m.m22 - m.m12 * m.m21)
  - m.m01 * (m.m10 * m.m22 - m.m12 * m.m20)
  + m.m02 * (m.m10 * m.m21 - m.m11 * m.m20)

/-- Adjugate (transpose of the cofactor matrix). -/
def Mat3.adjugate (m : Mat3) : Mat3 :=
  ⟨m.m11 * m.m22 - m.m12 * m.m21,
   -(m.m01 * m.m22 - m.m02 * m.m21),
   m.m01 * m.m12 - m.m02 * m.m11,
   -(m.m10 * m.m22 - m.m12 * m.m20),
   m.m00 * m.m22 - m.m02 * m.m20,
   -(m.m00 * m.m12 - m.m02 * m.m10),
   m.m10 * m.m21 - m.m11 * m.m20,
   -(m.m00 * m.m21 - m.m01 * m.m20),
   m.m00 * m.m11 - m.m01 * m.m10⟩

def Mat3.smulM (q : ℚ) (m : Mat3) : Mat3 :=
  ⟨q * m.m00, q * m.m01, q * m.m02,
   q * m.m10, q * m.m11, q * m.m12,
   q * m.m20, q * m.m21, q * m.m22⟩

/-- `glam::Mat3::inverse` via the adjugate and the reciprocal determinant. -/
def Mat3.inverse (m : Mat3) : Mat3 := Mat3.smulM (1 / m.det) m.adjugate

/-- Affine transform (`GlobalTransform`/`glam::Affine3A`): a linear part
and a translation. -/
structure Affine3 where
  matrix3 : Mat3
  translation : Vec3
deriving DecidableEq, Repr

/-- `Affine3A::transform_point3` (also `GlobalTransform::transform_point`). -/
def Affine3.transformPoint3 (a : Affine3) (p : Vec3) : Vec3 :=
  Vec3.add (a.matrix3.mulVec p) a.translation

/-- `Affine3A::inverse`: invert the linear part, then negate the
transformed translation. -/
def Affine3.inverse (a : Affine3) : Affine3 :=
  let matInv := a.matrix3.inverse
  ⟨matInv, Vec3.neg (matInv.mulVec a.translation)⟩

/-! ## Components and events (src/main.rs) -/

/-- `PointerButton` of the picking backend. -/
inductive PointerButton where
  | Primary
  | Secondary
  | Middle
deriving DecidableEq, Repr

/-- `DragTarget` component (src/main.rs, lines 14-27).  Entities are
modelled by their numeric ids. -/
structure DragTarget where
  -- the camera on which this drag is occurring
  camera : Nat
  -- allows calculating the drag target from the mouse
  origin : Vec3
  -- the offset from the center of mass where the drag started
  offset : Vec3
  -- distance of the drag (as last reported by events<pointer<drag>>)
  distance : Vec2
deriving DecidableEq, Repr

/-- The fields of `Listener<Pointer<DragStart>>` that the drag-start
handler reads. -/
structure DragStartListener where
  button : PointerButton
  hitPosition : Option Vec3
  hitCamera : Nat
deriving DecidableEq, Repr

/-- The drag-start handler (src/main.rs, lines 118-133).  A panic
(`.expect` on a missing hit position) is modelled as `Except.error`
carrying the panic message; `.ok none` means no `DragTarget` component was
inserted.  The body transform obtained from
`target.get_single().unwrap()` is passed in as `targetTransform`. -/
def dragStartHandler (listener : DragStartListener) (targetTransform : Affine3) :
    Except String (Option DragTarget) :=
  if listener.button = PointerButton.Primary then
    match listener.hitPosition with
    | none => Except.error "backend does not support `position`"
    | some position =>
        Except.ok (some
          { camera := listener.hitCamera
            origin := position
            offset := targetTransform.inverse.transformPoint3 position
            distance := ⟨0, 0⟩ })
  else
    Except.ok none

/-- The three accessors of the camera `GlobalTransform` that
`drag_system` reads: `translation()`, `right()` and `up()`
(interface-level model of the external bevy API). -/
structure CameraFrame where
  translation : Vec3
  right : Vec3
  up : Vec3
deriving DecidableEq, Repr

/-- `bevy_rapier3d::ExternalImpulse`. -/
structure ExternalImpulse where
  impulse : Vec3
  torqueImpulse : Vec3
deriving DecidableEq, Repr

/-- A `Pointer<Drag>` event; only its cumulative `distance` is read. -/
structure DragEvent where
  distance : Vec2
deriving DecidableEq, Repr

/-- One entity matching
`Query<(&mut DragTarget, &GlobalTransform, &mut ExternalImpulse)>`. -/
structure DraggedEntity where
  dragTarget : DragTarget
  transform : Affine3
  externalImpulse : ExternalImpulse
deriving DecidableEq, Repr

/-- The state `drag_system` touches: the entities matching its dragged
query and the camera transforms (`Query<&GlobalTransform, With<Camera>>`)
keyed by entity id. -/
structure World where
  targets : List DraggedEntity
  cameras : List (Nat × CameraFrame)
deriving DecidableEq, Repr

/-- `Query::get_single_mut`: `Ok` exactly when one entity matches. -/
def getSingle {α : Type} : List α → Option α
  | [a] => some a
  | _ => none

/-- `camera_transforms.get(entity)`. -/
def lookupCamera : List (Nat × CameraFrame) → Nat → Option CameraFrame
  | [], _ => none
  | (e, c) :: rest, e' => if e = e' then some c else lookupCamera rest e'

/-! ## The pieces of `drag_system` (src/main.rs, lines 138-176) -/

/-- Lines 153-156: `camera_transform.translation() + distance.x *
camera_transform.right() - distance.y * camera_transform.up()`, vertical
component then zeroed. -/
def dragTargetOffset (cameraTransform : CameraFrame) (distance : Vec2) : Vec3 :=
  let v := Vec3.sub
    (Vec3.add cameraTransform.translation (Vec3.smul distance.x cameraTransform.right))
    (Vec3.smul distance.y cameraTransform.up)
  { v with y := 0 }

/-- Modelled from the spec for the C2 comparison (§4.4 step 2):
`offset_vec = distance.x * camera.right − distance.y * camera.up`,
vertical component zeroed.  Unlike `dragTargetOffset`, the camera
translation does not appear. -/
def offsetVecSpec (cameraTransform : CameraFrame) (distance : Vec2) : Vec3 :=
  let v := Vec3.sub (Vec3.smul distance.x cameraTransform.right)
    (Vec3.smul distance.y cameraTransform.up)
  { v with y := 0 }

/-- Line 159: `(camera_transform.translation() - target.origin).length() *
0.0011`.  The `f32` Euclidean length is threaded through as the parameter
`len`; no claim below depends on its values. -/
def zoomFactor (len : Vec3 → ℚ) (cameraTransform : CameraFrame) (origin : Vec3) : ℚ :=
  len (Vec3.sub cameraTransform.translation origin) * (11 / 10000)

/-- Line 160: `target.origin + (drag_target_offset * zoom_factor)`. -/
def dragTargetPoint (len : Vec3 → ℚ) (cameraTransform : CameraFrame) (target : DragTarget) :
    Vec3 :=
  Vec3.add target.origin
    (Vec3.smul (zoomFactor len cameraTransform target.origin)
      (dragTargetOffset cameraTransform target.distance))

/-- Line 161: `target_transform.transform_point(target.offset)`. -/
def dragPoint (targetTransform : Affine3) (target : DragTarget) : Vec3 :=
  targetTransform.transformPoint3 target.offset

/-- Line 164: `const GAIN: f32 = 1.5`. -/
def GAIN : ℚ := 3 / 2

/-- Lines 166-167: `(drag_target - drag_point).clamp(Vec3::NEG_ONE,
Vec3::ONE) * GAIN`. -/
def dragImpulse (dragTarget point : Vec3) : Vec3 :=
  Vec3.smul GAIN (Vec3.clamp (Vec3.sub dragTarget point) Vec3.negOne Vec3.one)

/-- Lines 170-171: `drag_point - target_transform.translation()`, vertical
component then zeroed. -/
def dragComOffset (point : Vec3) (targetTransform : Affine3) : Vec3 :=
  let v := Vec3.sub point targetTransform.translation
  { v with y := 0 }

/-- Line 173: `drag_com_offset - drag_com_offset.project_onto(drag_impulse)`. -/
def orthogonalVector (comOffset impulse : Vec3) : Vec3 :=
  Vec3.sub comOffset (Vec3.projectOnto comOffset impulse)

/-- Line 174: `orthogonal_vector.cross(drag_impulse)`. -/
def torqueImpulse (comOffset impulse : Vec3) : Vec3 :=
  Vec3.cross (orthogonalVector comOffset impulse) impulse

/-- Lines 145-147: `if let Some(last_drag_event) = drag_events.iter().last()
{ target.distance = last_drag_event.distance; }`. -/
def updateDragTarget (dragEvents : List DragEvent) (target : DragTarget) : DragTarget :=
  match dragEvents.getLast? with
  | some lastDragEvent => { target with distance := lastDragEvent.distance }
  | none => target

/-- `drag_system` (src/main.rs, lines 138-176), one tick.  `dragEvents`
are this tick's `EventReader<Pointer<Drag>>` events in delivery order.
`Except.error` models a panic: the `.unwrap()` on the camera lookup.
A failing `get_single_mut` is handled by `if let Ok` and is a no-op. -/
def dragSystem (len : Vec3 → ℚ) (dragEvents : List DragEvent) (w : World) :
    Except String World :=
  match getSingle w.targets with
  | none => Except.ok w
  | some entity =>
      /- update the cached target distance -/
      let target := updateDragTarget dragEvents entity.dragTarget
      match lookupCamera w.cameras target.camera with
      | none => Except.error "called `Option::unwrap()` on a `None` value"
      | some cameraTransform =>
          let tgt := dragTargetPoint len cameraTransform target
          let point := dragPoint entity.transform target
          let impulse := dragImpulse tgt point
          let comOffset := dragComOffset point entity.transform
          let force : ExternalImpulse := ⟨impulse, torqueImpulse comOffset impulse⟩
          Except.ok { w with targets := [⟨target, entity.transform, force⟩] }

/-- `On::<Pointer<DragEnd>>::target_remove::<DragTarget>` (line 135):
removing the `DragTarget` component from the dragged entity removes every
match of `drag_system`'s query. -/
def dragEndHandler (w : World) : World := { w with targets := [] }

/-- Iterated ticks of `drag_system`, one event batch per tick. -/
def runTicks (len : Vec3 → ℚ) (batches : List (List DragEvent)) (w : World) :
    Except String World :=
  match batches with
  | [] => Except.ok w
  | evts :: rest => do
      let w' ← dragSystem len evts w
      runTicks len rest w'

/-! ## IEEE special-value model of the degenerate torque path -/

/-- IEEE-754-style extended value: NaN, signed infinities, or an exact
finite value.  Used to model the `f32` special-value semantics of
`project_onto` on a zero-length `rhs`; on the degenerate paths evaluated
below every finite intermediate is exact, so omitting rounding (and the
negative zero, which does not arise there) is faithful. -/
inductive F where
  | nan : F
  | inf : Bool → F
  | fin : ℚ → F
deriving DecidableEq, Repr

def F.neg : F → F
  | nan => nan
  | inf s => inf (!s)
  | fin q => fin (-q)

def F.add : F → F → F
  | nan, _ => nan
  | _, nan => nan
  | inf s, inf t => if s = t then inf s else nan
  | inf s, fin _ => inf s
  | fin _, inf t => inf t
  | fin a, fin b => fin (a + b)

def F.sub (a b : F) : F := F.add a (F.neg b)

def F.mul : F → F → F
  | nan, _ => nan
  | _, nan => nan
  | inf s, inf t => inf (s == t)
  | inf s, fin q => if q = 0 then nan else inf (s == decide (0 < q))
  | fin q, inf s => if q = 0 then nan else inf (s == decide (0 < q))
  | fin a, fin b => fin (a * b)

/-- `f32::recip`: `1/0 = +∞`, `1/±∞ = 0`. -/
def F.recip : F → F
  | nan => nan
  | inf _ => fin 0
  | fin q => if q = 0 then inf true else fin q⁻¹

/-- 3-vector of extended values (the `f32` view of `glam::Vec3`). -/
structure VecF where
  x : F
  y : F
  z : F
deriving DecidableEq, Repr

def VecF.dotF (a b : VecF) : F :=
  F.add (F.add (F.mul a.x b.x) (F.mul a.y b.y)) (F.mul a.z b.z)

/-- `Vec3 * f32`, component-wise. -/
def VecF.mulS (v : VecF) (s : F) : VecF := ⟨F.mul v.x s, F.mul v.y s, F.mul v.z s⟩

def VecF.subV (a b : VecF) : VecF := ⟨F.sub a.x b.x, F.sub a.y b.y, F.sub a.z b.z⟩

def VecF.crossF (a b : VecF) : VecF :=
  ⟨F.sub (F.mul a.y b.z) (F.mul a.z b.y),
   F.sub (F.mul a.z b.x) (F.mul a.x b.z),
   F.sub (F.mul a.x b.y) (F.mul a.y b.x)⟩

/-- `glam::Vec3::project_onto` exactly as written:
`rhs * self.dot(rhs) * rhs.dot(rhs).recip()`. -/
def VecF.projectOntoF (v rhs : VecF) : VecF :=
  VecF.mulS (VecF.mulS rhs (VecF.dotF v rhs)) (F.recip (VecF.dotF rhs rhs))

/-- Line 173 under `f32` semantics. -/
def VecF.orthogonalVectorF (comOffset impulse : VecF) : VecF :=
  VecF.subV comOffset (VecF.projectOntoF comOffset impulse)

/-- Line 174 under `f32` semantics. -/
def VecF.torqueImpulseF (comOffset impulse : VecF) : VecF :=
  VecF.crossF (VecF.orthogonalVectorF comOffset impulse) impulse

def VecF.zeroF : VecF := ⟨F.fin 0, F.fin 0, F.fin 0⟩

/-! ## Concrete instances used by witnesses and counterexamples -/

/-- A camera frame sitting at the world origin with axis-aligned right/up. -/
def camA : CameraFrame := ⟨⟨0, 0, 0⟩, ⟨1, 0, 0⟩, ⟨0, 1, 0⟩⟩

/-- A camera frame at translation `(1, 0, 2)`. -/
def camB : CameraFrame := ⟨⟨1, 0, 2⟩, ⟨1, 0, 0⟩, ⟨0, 1, 0⟩⟩

/-- The identity transform. -/
def affId : Affine3 := ⟨⟨1, 0, 0, 0, 1, 0, 0, 0, 1⟩, ⟨0, 0, 0⟩⟩

/-- An invertible transform: scale 2 along x, translation `(1, 0, 0)`. -/
def affB : Affine3 := ⟨⟨2, 0, 0, 0, 1, 0, 0, 0, 1⟩, ⟨1, 0, 0⟩⟩

/-- A drag session grabbing the body dead-centre via camera 0. -/
def sessionA : DragTarget := ⟨0, ⟨0, 0, 0⟩, ⟨0, 0, 0⟩, ⟨0, 0⟩⟩

/-- A drag session whose origin sits above the ground plane. -/
def dtA : DragTarget := ⟨0, ⟨0, 1/20, 0⟩, ⟨0, 0, 0⟩, ⟨0, 0⟩⟩

/-- The session created by `dragStartHandler` on `affB` at hit point
`(1, 2, 3)`. -/
def dtB : DragTarget := ⟨7, ⟨1, 2, 3⟩, ⟨0, 2, 3⟩, ⟨0, 0⟩⟩

/-- The dragged box at rest with a stale stored impulse. -/
def entityA : DraggedEntity := ⟨sessionA, affId, ⟨⟨5, 5, 5⟩, ⟨5, 5, 5⟩⟩⟩

/-- One dragged box, one camera. -/
def worldA : World := ⟨[entityA], [(0, camA)]⟩

/-- `entityA` after one tick with no drag events: impulses overwritten
with zeros. -/
def entityA' : DraggedEntity := ⟨sessionA, affId, ⟨⟨0, 0, 0⟩, ⟨0, 0, 0⟩⟩⟩

/-- `worldA` after one tick with no drag events. -/
def worldA' : World := ⟨[entityA'], [(0, camA)]⟩

/-- `entityA` after one tick whose last drag event reports `(7, 8)`. -/
def entityB' : DraggedEntity :=
  ⟨⟨0, ⟨0, 0, 0⟩, ⟨0, 0, 0⟩, ⟨7, 8⟩⟩, affId, ⟨⟨0, 0, 0⟩, ⟨0, 0, 0⟩⟩⟩

/-- `worldA` after one tick whose last drag event reports `(7, 8)`. -/
def worldB' : World := ⟨[entityB'], [(0, camA)]⟩

/-- A world whose session names camera 1, but no camera transform exists. -/
def worldC : World :=
  ⟨[⟨⟨1, ⟨0, 0, 0⟩, ⟨0, 0, 0⟩, ⟨0, 0⟩⟩, affId, ⟨⟨0, 0, 0⟩, ⟨0, 0, 0⟩⟩⟩], []⟩

/-- A world where two entities match the dragged-body query. -/
def worldD : World := ⟨[entityA, entityA], [(0, camA)]⟩

/-- A degenerate `len` (its value is irrelevant to every claim). -/
def lenA : Vec3 → ℚ := fun _ => 0

/-! ## General lemmas -/

@[ext] theorem Vec3.ext3 {a b : Vec3} (hx : a.x = b.x) (hy : a.y = b.y) (hz : a.z = b.z) :
    a = b := by
  cases a; cases b; simp_all

@[simp] theorem Vec3.add_x (a b : Vec3) : (Vec3.add a b).x = a.x + b.x := rfl
@[simp] theorem Vec3.add_y (a b : Vec3) : (Vec3.add a b).y = a.y + b.y := rfl
@[simp] theorem Vec3.add_z (a b : Vec3) : (Vec3.add a b).z = a.z + b.z := rfl
@[simp] theorem Vec3.sub_x (a b : Vec3) : (Vec3.sub a b).x = a.x - b.x := rfl
@[simp] theorem Vec3.sub_y (a b : Vec3) : (Vec3.sub a b).y = a.y - b.y := rfl
@[simp] theorem Vec3.sub_z (a b : Vec3) : (Vec3.sub a b).z = a.z - b.z := rfl
@[simp] theorem Vec3.smul_x (q : ℚ) (a : Vec3) : (Vec3.smul q a).x = q * a.x := rfl
@[simp] theorem Vec3.smul_y (q : ℚ) (a : Vec3) : (Vec3.smul q a).y = q * a.y := rfl
@[simp] theorem Vec3.smul_z (q : ℚ) (a : Vec3) : (Vec3.smul q a).z = q * a.z := rfl
@[simp] theorem Vec3.neg_x (a : Vec3) : (Vec3.neg a).x = -a.x := rfl
@[simp] theorem Vec3.neg_y (a : Vec3) : (Vec3.neg a).y = -a.y := rfl
@[simp] theorem Vec3.neg_z (a : Vec3) : (Vec3.neg a).z = -a.z := rfl

theorem Mat3.mulVec_adjugate_mulVec (m : Mat3) (v : Vec3) :
    m.mulVec (m.adjugate.mulVec v) = Vec3.smul m.det v := by
  ext <;> simp [Mat3.mulVec, Mat3.adjugate, Mat3.det] <;> ring

theorem Mat3.adjugate_mulVec_mulVec (m : Mat3) (v : Vec3) :
    m.adjugate.mulVec (m.mulVec v) = Vec3.smul m.det v := by
  ext <;> simp [Mat3.mulVec, Mat3.adjugate, Mat3.det] <;> ring

theorem Mat3.mulVec_smul (m : Mat3) (q : ℚ) (v : Vec3) :
    m.mulVec (Vec3.smul q v) = Vec3.smul q (m.mulVec v) := by
  ext <;> simp [Mat3.mulVec] <;> ring

theorem Affine3.smulM_point (n : Mat3) (q : ℚ) (t p : Vec3) :
    Vec3.add ((Mat3.smulM q n).mulVec p) (Vec3.neg ((Mat3.smulM q n).mulVec t)) =
      Vec3.smul q (n.mulVec (Vec3.sub p t)) := by
  ext <;> simp [Mat3.smulM, Mat3.mulVec] <;> ring

theorem Affine3.smul_inv_smul {d : ℚ} (hd : d ≠ 0) (v : Vec3) :
    Vec3.smul (1 / d) (Vec3.smul d v) = v := by
  ext <;> field_simp

theorem Affine3.add_neg_add (w t : Vec3) : Vec3.sub (Vec3.add w t) t = w := by
  ext <;> simp

theorem Affine3.sub_add_cancel3 (p t : Vec3) : Vec3.add (Vec3.sub p t) t = p := by
  ext <;> simp

/-- Unfolded form of the inverse affine transform: `(1/det) · adj(M) · (p − t)`. -/
theorem Affine3.inverse_transformPoint3_eq (a : Affine3) (p : Vec3) :
    a.inverse.transformPoint3 p =
      Vec3.smul (1 / a.matrix3.det) (a.matrix3.adjugate.mulVec (Vec3.sub p a.translation)) := by
  show Vec3.add ((Mat3.smulM _ _).mulVec p) (Vec3.neg ((Mat3.smulM _ _).mulVec a.translation)) = _
  rw [Affine3.smulM_point]

theorem Affine3.transformPoint3_inverse (a : Affine3) (hd : a.matrix3.det ≠ 0) (p : Vec3) :
    a.transformPoint3 (a.inverse.transformPoint3 p) = p := by
  rw [Affine3.inverse_transformPoint3_eq]
  show Vec3.add (a.matrix3.mulVec _) a.translation = p
  rw [Mat3.mulVec_smul, Mat3.mulVec_adjugate_mulVec, Affine3.smul_inv_smul hd,
    Affine3.sub_add_cancel3]

theorem Affine3.inverse_transformPoint3 (a : Affine3) (hd : a.matrix3.det ≠ 0) (p : Vec3) :
    a.inverse.transformPoint3 (a.transformPoint3 p) = p := by
  rw [Affine3.inverse_transformPoint3_eq]
  show Vec3.smul _ (a.matrix3.adjugate.mulVec
      (Vec3.sub (Vec3.add (a.matrix3.mulVec p) a.translation) a.translation)) = p
  rw [Affine3.add_neg_add, Mat3.adjugate_mulVec_mulVec, Affine3.smul_inv_smul hd]

theorem getSingle_eq_some {α : Type} {l : List α} {a : α} :
    getSingle l = some a ↔ l = [a] := by
  match l with
  | [] => simp [getSingle]
  | [x] => simp [getSingle]
  | x :: y :: rest => simp [getSingle]

theorem updateDragTarget_camera (evts : List DragEvent) (t : DragTarget) :
    (updateDragTarget evts t).camera = t.camera := by
  unfold updateDragTarget
  cases evts.getLast? <;> rfl

theorem updateDragTarget_origin (evts : List DragEvent) (t : DragTarget) :
    (updateDragTarget evts t).origin = t.origin := by
  unfold updateDragTarget
  cases evts.getLast? <;> rfl

theorem updateDragTarget_offset (evts : List DragEvent) (t : DragTarget) :
    (updateDragTarget evts t).offset = t.offset := by
  unfold updateDragTarget
  cases evts.getLast? <;> rfl

theorem updateDragTarget_distance (evts : List DragEvent) (t : DragTarget) :
    (updateDragTarget evts t).distance =
      (match evts.getLast? with
       | some lastDragEvent => lastDragEvent.distance
       | none => t.distance) := by
  unfold updateDragTarget
  cases evts.getLast? <;> rfl

/-- Characterisation of a successful active-session tick. -/
theorem dragSystem_active_eq (len : Vec3 → ℚ) (evts : List DragEvent) (w : World)
    (entity : DraggedEntity) (cam : CameraFrame)
    (hw : w.targets = [entity])
    (hc : lookupCamera w.cameras (updateDragTarget evts entity.dragTarget).camera = some cam) :
    dragSystem len evts w =
      Except.ok { w with targets := [⟨updateDragTarget evts entity.dragTarget, entity.transform,
        ⟨dragImpulse (dragTargetPoint len cam (updateDragTarget evts entity.dragTarget))
           (dragPoint entity.transform (updateDragTarget evts entity.dragTarget)),
         torqueImpulse
           (dragComOffset (dragPoint entity.transform (updateDragTarget evts entity.dragTarget))
             entity.transform)
           (dragImpulse (dragTargetPoint len cam (updateDragTarget evts entity.dragTarget))
             (dragPoint entity.transform (updateDragTarget evts entity.dragTarget)))⟩⟩] } := by
  unfold dragSystem
  rw [hw]
  simp [getSingle, hc]

/-- Characterisation of the camera-lookup panic. -/
theorem dragSystem_panic_eq (len : Vec3 → ℚ) (evts : List DragEvent) (w : World)
    (entity : DraggedEntity)
    (hw : w.targets = [entity])
    (hc : lookupCamera w.cameras (updateDragTarget evts entity.dragTarget).camera = none) :
    dragSystem len evts w = Except.error "called `Option::unwrap()` on a `None` value" := by
  unfold dragSystem
  rw [hw]
  simp [getSingle, hc]

/-- Per-axis bound on the clamped, gain-scaled impulse. -/
theorem abs_dragImpulse_le (tgt pt : Vec3) :
    |(dragImpulse tgt pt).x| ≤ GAIN ∧ |(dragImpulse tgt pt).y| ≤ GAIN ∧
      |(dragImpulse tgt pt).z| ≤ GAIN := by
  have h : ∀ d : ℚ, |GAIN * min (max d (-1)) 1| ≤ GAIN := by
    intro d
    rw [abs_mul]
    have hg : |GAIN| = GAIN := by norm_num [GAIN]
    rw [hg]
    have h1 : min (max d (-1)) 1 ≤ 1 := min_le_right _ _
    have h2 : (-1 : ℚ) ≤ min (max d (-1)) 1 :=
      le_min (le_trans (by norm_num) (le_max_right d (-1))) (by norm_num)
    have habs : |min (max d (-1)) 1| ≤ 1 := abs_le.mpr ⟨h2, h1⟩
    calc GAIN * |min (max d (-1)) 1| ≤ GAIN * 1 :=
          mul_le_mul_of_nonneg_left habs (by norm_num [GAIN])
      _ = GAIN := mul_one _
  refine ⟨?_, ?_, ?_⟩ <;>
    simpa [dragImpulse, Vec3.clamp, Vec3.smul, Vec3.negOne, Vec3.one] using h _

/-! ## Claims -/

/-- C1: for every active drag session the linear impulse written by
`drag_system` equals the per-axis clamp of `target − drag_point` to
`[-1, 1]` multiplied by the gain constant `1.5`, so each axis of the
impulse has magnitude at most `1.5`, however far the target is from the
drag point. -/
theorem C1_impulse_clamped_by_gain (len : Vec3 → ℚ) (evts : List DragEvent)
    (w w' : World) (entity e : DraggedEntity) (cam : CameraFrame)
    (hw : getSingle w.targets = some entity)
    (hc : lookupCamera w.cameras (updateDragTarget evts entity.dragTarget).camera = some cam)
    (hrun : dragSystem len evts w = Except.ok w')
    (he : e ∈ w'.targets) :
    e.externalImpulse.impulse =
      dragImpulse (dragTargetPoint len cam (updateDragTarget evts entity.dragTarget))
        (dragPoint entity.transform (updateDragTarget evts entity.dragTarget)) ∧
    |e.externalImpulse.impulse.x| ≤ GAIN ∧ |e.externalImpulse.impulse.y| ≤ GAIN ∧
      |e.externalImpulse.impulse.z| ≤ GAIN := by
  rw [getSingle_eq_some] at hw
  rw [dragSystem_active_eq len evts w entity cam hw hc] at hrun
  simp only [Except.ok.injEq] at hrun
  subst hrun
  obtain rfl := List.mem_singleton.mp he
  exact ⟨rfl, abs_dragImpulse_le _ _⟩

/-- C1 witness: the at-rest scene evaluated through the theorem. -/
theorem C1_witness :
    entityA'.externalImpulse.impulse =
      dragImpulse (dragTargetPoint lenA camA (updateDragTarget [] entityA.dragTarget))
        (dragPoint entityA.transform (updateDragTarget [] entityA.dragTarget)) ∧
    |entityA'.externalImpulse.impulse.x| ≤ GAIN ∧ |entityA'.externalImpulse.impulse.y| ≤ GAIN ∧
      |entityA'.externalImpulse.impulse.z| ≤ GAIN :=
  C1_impulse_clamped_by_gain lenA [] worldA worldA' entityA entityA' camA rfl rfl
    (by
      rw [dragSystem_active_eq lenA [] worldA entityA camA rfl rfl]
      norm_num [worldA, worldA', entityA, entityA', sessionA, camA, affId, lenA,
        updateDragTarget, dragImpulse, dragTargetPoint, dragTargetOffset, zoomFactor,
        dragPoint, Affine3.transformPoint3, Mat3.mulVec, Vec3.add, Vec3.sub, Vec3.smul,
        Vec3.clamp, Vec3.negOne, Vec3.one, GAIN, torqueImpulse, orthogonalVector,
        dragComOffset, Vec3.projectOnto, Vec3.dot, Vec3.cross, min_def, max_def])
    (List.mem_singleton.mpr rfl)

/-- C2 (counterexample): at camera translation `(1, 0, 2)` the computed
offset is `(1, 0, 2)`, not the spec's `distance.x·right − distance.y·up`
(which is `(0, 0, 0)` for zero distance), and with hit point
`(0, 1/20, 0)` the computed target has `y = 1/20`, not on the ground
plane. -/
theorem C2_counterexample :
    dragTargetOffset camB ⟨0, 0⟩ ≠ offsetVecSpec camB ⟨0, 0⟩ ∧
    (dragTargetPoint (fun _ => 1) camB dtA).y ≠ 0 := by
  constructor
  · norm_num [dragTargetOffset, offsetVecSpec, camB, Vec3.add, Vec3.sub, Vec3.smul,
      Vec3.mk.injEq]
  · norm_num [dragTargetPoint, dragTargetOffset, zoomFactor, camB, dtA, Vec3.add,
      Vec3.sub, Vec3.smul]

/-- C2 amended: the controller's offset is the camera translation (with
vertical component zeroed) plus the spec's
`distance.x·right − distance.y·up` term, and the target keeps the hit
point's height — `target.y = origin.y` — so it lies on the ground plane
`y = 0` only when the hit point does. -/
theorem C2_offset_includes_camera_translation (len : Vec3 → ℚ) (cam : CameraFrame)
    (d : Vec2) (t : DragTarget) :
    dragTargetOffset cam d =
      Vec3.add ⟨cam.translation.x, 0, cam.translation.z⟩ (offsetVecSpec cam d) ∧
    (dragTargetPoint len cam t).y = t.origin.y := by
  constructor
  · ext <;> simp [dragTargetOffset, offsetVecSpec] <;> ring
  · simp [dragTargetPoint, dragTargetOffset]

/-- C3: a drag-end removes the `DragTarget` component, after which the
dragged-body query matches nothing, so every subsequent tick of
`drag_system` is a no-op: the body's external impulse state is left
unwritten, whatever drag events still arrive. -/
theorem C3_no_impulses_after_drag_end (len : Vec3 → ℚ) (batches : List (List DragEvent))
    (w : World) :
    runTicks len batches (dragEndHandler w) = Except.ok (dragEndHandler w) := by
  have h1 : ∀ evts, dragSystem len evts (dragEndHandler w) = Except.ok (dragEndHandler w) :=
    fun _ => rfl
  induction batches with
  | nil => rfl
  | cons evts rest ih =>
      have hstep : runTicks len (evts :: rest) (dragEndHandler w) =
          runTicks len rest (dragEndHandler w) := by
        show (dragSystem len evts (dragEndHandler w) >>= fun w' => runTicks len rest w') = _
        rw [h1 evts]
        rfl
      rw [hstep]
      exact ih

/-- C4: the drag-start handler stores `offset = inverse(T0) · origin`
(`T0` the body's world transform at drag start); whenever `T0` is
invertible the round trip `T0 · offset` returns the hit point, and
`offset` is exactly the unique local point whose image under `T0` is the
hit point — so applying the body's current world transform to `offset`
at any later tick is, by definition of rigid attachment, the current
world position of the originally grabbed point. -/
theorem C4_offset_round_trip (listener : DragStartListener) (T0 : Affine3)
    (dt : DragTarget) (p : Vec3)
    (hrun : dragStartHandler listener T0 = Except.ok (some dt))
    (hd : T0.matrix3.det ≠ 0) :
    dt.offset = T0.inverse.transformPoint3 dt.origin ∧
    T0.transformPoint3 dt.offset = dt.origin ∧
    (T0.transformPoint3 p = dt.origin ↔ p = dt.offset) := by
  obtain ⟨btn, hp, hcam⟩ := listener
  cases btn with
  | Primary =>
      cases hp with
      | none => exact Except.noConfusion hrun
      | some pos =>
          have h1 := Option.some.inj (Except.ok.inj hrun)
          subst h1
          refine ⟨rfl, Affine3.transformPoint3_inverse T0 hd pos, ?_, ?_⟩
          · intro h
            have h2 := Affine3.inverse_transformPoint3 T0 hd p
            rw [h] at h2
            exact h2.symm
          · intro h
            rw [h]
            exact Affine3.transformPoint3_inverse T0 hd pos
  | Secondary => exact Option.noConfusion (Except.ok.inj hrun)
  | Middle => exact Option.noConfusion (Except.ok.inj hrun)

/-- C4 witness: the handler on the invertible transform `affB` at hit
point `(1, 2, 3)`. -/
theorem C4_witness :
    dtB.offset = affB.inverse.transformPoint3 dtB.origin ∧
    affB.transformPoint3 dtB.offset = dtB.origin ∧
    (affB.transformPoint3 ⟨0, 2, 3⟩ = dtB.origin ↔ (⟨0, 2, 3⟩ : Vec3) = dtB.offset) :=
  C4_offset_round_trip ⟨PointerButton.Primary, some ⟨1, 2, 3⟩, 7⟩ affB dtB ⟨0, 2, 3⟩
    (by
      norm_num [dragStartHandler, dtB, affB, Affine3.inverse, Affine3.transformPoint3,
        Mat3.inverse, Mat3.det, Mat3.adjugate, Mat3.smulM, Mat3.mulVec, Vec3.add, Vec3.neg,
        Vec3.mk.injEq, DragTarget.mk.injEq, Vec2.mk.injEq])
    (by norm_num [affB, Mat3.det])

/-- C5: on an active tick the torque impulse written is
`orthogonal × impulse`, where the orthogonal lever arm is the
vertically-zeroed `drag_point − comWorld` minus its projection onto the
applied linear impulse; `comWorld`, the body's world centre of mass,
equals the body translation (`hcom`) — as it does in this scene, whose
single dynamic body is a uniformly dense cuboid collider centred at the
body origin. -/
theorem C5_torque_from_orthogonal_lever (len : Vec3 → ℚ) (evts : List DragEvent)
    (w w' : World) (entity e : DraggedEntity) (cam : CameraFrame) (comWorld : Vec3)
    (hw : getSingle w.targets = some entity)
    (hc : lookupCamera w.cameras (updateDragTarget evts entity.dragTarget).camera = some cam)
    (hrun : dragSystem len evts w = Except.ok w')
    (he : e ∈ w'.targets)
    (hcom : comWorld = entity.transform.translation) :
    e.externalImpulse.torqueImpulse =
      Vec3.cross
        (Vec3.sub
          ({ Vec3.sub (dragPoint entity.transform (updateDragTarget evts entity.dragTarget))
              comWorld with y := 0 })
          (Vec3.projectOnto
            ({ Vec3.sub (dragPoint entity.transform (updateDragTarget evts entity.dragTarget))
                comWorld with y := 0 })
            e.externalImpulse.impulse))
        e.externalImpulse.impulse := by
  subst hcom
  rw [getSingle_eq_some] at hw
  rw [dragSystem_active_eq len evts w entity cam hw hc] at hrun
  simp only [Except.ok.injEq] at hrun
  subst hrun
  obtain rfl := List.mem_singleton.mp he
  rfl

/-- C5 witness: the at-rest scene with `comWorld` the identity
translation. -/
theorem C5_witness :
    entityA'.externalImpulse.torqueImpulse =
      Vec3.cross
        (Vec3.sub
          ({ Vec3.sub (dragPoint entityA.transform (updateDragTarget [] entityA.dragTarget))
              affId.translation with y := 0 })
          (Vec3.projectOnto
            ({ Vec3.sub (dragPoint entityA.transform (updateDragTarget [] entityA.dragTarget))
                affId.translation with y := 0 })
            entityA'.externalImpulse.impulse))
        entityA'.externalImpulse.impulse :=
  C5_torque_from_orthogonal_lever lenA [] worldA worldA' entityA entityA' camA
    affId.translation rfl rfl
    (by
      rw [dragSystem_active_eq lenA [] worldA entityA camA rfl rfl]
      norm_num [worldA, worldA', entityA, entityA', sessionA, camA, affId, lenA,
        updateDragTarget, dragImpulse, dragTargetPoint, dragTargetOffset, zoomFactor,
        dragPoint, Affine3.transformPoint3, Mat3.mulVec, Vec3.add, Vec3.sub, Vec3.smul,
        Vec3.clamp, Vec3.negOne, Vec3.one, GAIN, torqueImpulse, orthogonalVector,
        dragComOffset, Vec3.projectOnto, Vec3.dot, Vec3.cross, min_def, max_def])
    (List.mem_singleton.mpr rfl) rfl

/-- C6 (counterexample): a primary-button drag-start hit with no backend
hit position makes the handler panic (`.expect`), modelled as an error
result — the process aborts instead of continuing without a crash. -/
theorem C6_counterexample :
    dragStartHandler ⟨PointerButton.Primary, none, 0⟩ affId =
      Except.error "backend does not support `position`" := rfl

/-- C6 amended: when the picking backend supplies no world hit position
for a primary-button drag-start, no drag session is created — but the
handler panics with the documented message (a process abort), rather than
failing the transition without a crash. -/
theorem C6_missing_position_panics (listener : DragStartListener) (T : Affine3)
    (hb : listener.button = PointerButton.Primary)
    (hp : listener.hitPosition = none) :
    dragStartHandler listener T = Except.error "backend does not support `position`" := by
  obtain ⟨btn, pos, hcam⟩ := listener
  have hb2 : btn = PointerButton.Primary := hb
  have hp2 : pos = none := hp
  subst hb2
  subst hp2
  rfl

/-- C6 witness: the amended behaviour at a concrete listener. -/
theorem C6_witness :
    dragStartHandler ⟨PointerButton.Primary, none, 3⟩ affB =
      Except.error "backend does not support `position`" :=
  C6_missing_position_panics ⟨PointerButton.Primary, none, 3⟩ affB rfl rfl

/-- C7 (code bug): under `f32` semantics a zero-length linear impulse
drives `project_onto` into a division by zero (`recip 0 = +∞`,
`0 * ∞ = NaN`), so the torque impulse written is NaN in every component
rather than the zero vector; a zero-length lever arm with a nonzero
impulse does yield the zero torque, as claimed. -/
theorem C7_zero_impulse_nan_torque :
    VecF.torqueImpulseF ⟨F.fin 1, F.fin 0, F.fin 2⟩ VecF.zeroF = ⟨F.nan, F.nan, F.nan⟩ ∧
    VecF.torqueImpulseF VecF.zeroF ⟨F.fin 1, F.fin 0, F.fin 0⟩ = VecF.zeroF := by
  constructor
  · norm_num [VecF.torqueImpulseF, VecF.orthogonalVectorF, VecF.projectOntoF, VecF.crossF,
      VecF.subV, VecF.mulS, VecF.dotF, VecF.zeroF, F.mul, F.add, F.sub, F.neg, F.recip]
  · norm_num [VecF.torqueImpulseF, VecF.orthogonalVectorF, VecF.projectOntoF, VecF.crossF,
      VecF.subV, VecF.mulS, VecF.dotF, VecF.zeroF, F.mul, F.add, F.sub, F.neg, F.recip]

/-- C8: on an active tick the session's `distance` is overwritten with the
most recently delivered drag event's cumulative value — later events in
the same tick supersede earlier ones — and is held at its previous value
when no event arrives. -/
theorem C8_distance_overwritten_by_last_event (len : Vec3 → ℚ) (evts : List DragEvent)
    (w w' : World) (entity e : DraggedEntity) (cam : CameraFrame)
    (hw : getSingle w.targets = some entity)
    (hc : lookupCamera w.cameras (updateDragTarget evts entity.dragTarget).camera = some cam)
    (hrun : dragSystem len evts w = Except.ok w')
    (he : e ∈ w'.targets) :
    e.dragTarget.distance =
      (match evts.getLast? with
       | some lastDragEvent => lastDragEvent.distance
       | none => entity.dragTarget.distance) := by
  rw [getSingle_eq_some] at hw
  rw [dragSystem_active_eq len evts w entity cam hw hc] at hrun
  simp only [Except.ok.injEq] at hrun
  subst hrun
  obtain rfl := List.mem_singleton.mp he
  exact updateDragTarget_distance evts entity.dragTarget

/-- C8 witness: two drag events in one tick; the session ends up with the
second event's distance `(7, 8)`. -/
theorem C8_witness :
    entityB'.dragTarget.distance =
      (match ([⟨⟨3, 4⟩⟩, ⟨⟨7, 8⟩⟩] : List DragEvent).getLast? with
       | some lastDragEvent => lastDragEvent.distance
       | none => entityA.dragTarget.distance) :=
  C8_distance_overwritten_by_last_event lenA [⟨⟨3, 4⟩⟩, ⟨⟨7, 8⟩⟩] worldA worldB'
    entityA entityB' camA rfl rfl
    (by
      rw [dragSystem_active_eq lenA [⟨⟨3, 4⟩⟩, ⟨⟨7, 8⟩⟩] worldA entityA camA rfl rfl]
      norm_num [worldA, worldB', entityA, entityB', sessionA, camA, affId, lenA,
        updateDragTarget, dragImpulse, dragTargetPoint, dragTargetOffset, zoomFactor,
        dragPoint, Affine3.transformPoint3, Mat3.mulVec, Vec3.add, Vec3.sub, Vec3.smul,
        Vec3.clamp, Vec3.negOne, Vec3.one, GAIN, torqueImpulse, orthogonalVector,
        dragComOffset, Vec3.projectOnto, Vec3.dot, Vec3.cross, min_def, max_def])
    (List.mem_singleton.mpr rfl)

/-- C9 (counterexample): with an active session whose stored camera entity
has no camera transform, the tick panics (`.unwrap()` on the lookup)
instead of short-circuiting — so not every missing-singleton case is
non-fatal. -/
theorem C9_counterexample :
    dragSystem lenA [] worldC = Except.error "called `Option::unwrap()` on a `None` value" :=
  dragSystem_panic_eq lenA [] worldC ⟨⟨1, ⟨0, 0, 0⟩, ⟨0, 0, 0⟩, ⟨0, 0⟩⟩, affId,
    ⟨⟨0, 0, 0⟩, ⟨0, 0, 0⟩⟩⟩ rfl rfl

/-- C9 amended: when zero or more than one entity matches the
dragged-body query, the tick short-circuits with no force applied
(`get_single_mut` error handled by `if let Ok`); a session whose stored
camera entity has no camera transform, however, aborts the process via
`.unwrap()` rather than short-circuiting. -/
theorem C9_no_single_match_noop (len : Vec3 → ℚ) (evts : List DragEvent) (w : World)
    (h : getSingle w.targets = none) :
    dragSystem len evts w = Except.ok w := by
  unfold dragSystem
  rw [h]

/-- C9 witness: a world with two matching dragged bodies is left
untouched. -/
theorem C9_witness : dragSystem lenA [] worldD = Except.ok worldD :=
  C9_no_single_match_noop lenA [] worldD rfl

/-- C10: an active tick with a resolvable camera replaces the world state
by: the session with only its `distance` updated (camera, origin and
offset preserved), the unchanged body transform, and an external-impulse
record whose two fields — `impulse` and `torque_impulse` — are freshly
computed from this tick's inputs; the camera store is unchanged, and the
identical result is produced whatever impulse values were previously
stored (overwrite, never accumulation). -/
theorem C10_tick_frame_effects (len : Vec3 → ℚ) (evts : List DragEvent)
    (w w' : World) (entity : DraggedEntity) (cam : CameraFrame) (f : ExternalImpulse)
    (hw : getSingle w.targets = some entity)
    (hc : lookupCamera w.cameras (updateDragTarget evts entity.dragTarget).camera = some cam)
    (hrun : dragSystem len evts w = Except.ok w') :
    w' = { w with targets := [⟨updateDragTarget evts entity.dragTarget, entity.transform,
        ⟨dragImpulse (dragTargetPoint len cam (updateDragTarget evts entity.dragTarget))
           (dragPoint entity.transform (updateDragTarget evts entity.dragTarget)),
         torqueImpulse
           (dragComOffset (dragPoint entity.transform (updateDragTarget evts entity.dragTarget))
             entity.transform)
           (dragImpulse (dragTargetPoint len cam (updateDragTarget evts entity.dragTarget))
             (dragPoint entity.transform (updateDragTarget evts entity.dragTarget)))⟩⟩] } ∧
    (updateDragTarget evts entity.dragTarget).camera = entity.dragTarget.camera ∧
    (updateDragTarget evts entity.dragTarget).origin = entity.dragTarget.origin ∧
    (updateDragTarget evts entity.dragTarget).offset = entity.dragTarget.offset ∧
    w'.cameras = w.cameras ∧
    dragSystem len evts { w with targets := [{ entity with externalImpulse := f }] } =
      Except.ok w' := by
  rw [getSingle_eq_some] at hw
  rw [dragSystem_active_eq len evts w entity cam hw hc] at hrun
  simp only [Except.ok.injEq] at hrun
  subst hrun
  refine ⟨rfl, updateDragTarget_camera evts _, updateDragTarget_origin evts _,
    updateDragTarget_offset evts _, rfl, ?_⟩
  exact dragSystem_active_eq len evts _ { entity with externalImpulse := f } cam rfl hc

/-- C10 witness: the at-rest scene, with an arbitrary stale impulse
`(9, 9, 9)` on the body producing the identical post-tick state. -/
theorem C10_witness :
    worldA' = { worldA with
      targets := [⟨updateDragTarget [] entityA.dragTarget, entityA.transform,
        ⟨dragImpulse (dragTargetPoint lenA camA (updateDragTarget [] entityA.dragTarget))
           (dragPoint entityA.transform (updateDragTarget [] entityA.dragTarget)),
         torqueImpulse
           (dragComOffset (dragPoint entityA.transform (updateDragTarget [] entityA.dragTarget))
             entityA.transform)
           (dragImpulse (dragTargetPoint lenA camA (updateDragTarget [] entityA.dragTarget))
             (dragPoint entityA.transform (updateDragTarget [] entityA.dragTarget)))⟩⟩] } ∧
    (updateDragTarget [] entityA.dragTarget).camera = entityA.dragTarget.camera ∧
    (updateDragTarget [] entityA.dragTarget).origin = entityA.dragTarget.origin ∧
    (updateDragTarget [] entityA.dragTarget).offset = entityA.dragTarget.offset ∧
    worldA'.cameras = worldA.cameras ∧
    dragSystem lenA []
        { worldA with targets := [{ entityA with externalImpulse := ⟨⟨9, 9, 9⟩, ⟨9, 9, 9⟩⟩ }] } =
      Except.ok worldA' :=
  C10_tick_frame_effects lenA [] worldA worldA' entityA camA ⟨⟨9, 9, 9⟩, ⟨9, 9, 9⟩⟩ rfl rfl
    (by
      rw [dragSystem_active_eq lenA [] worldA entityA camA rfl rfl]
      norm_num [worldA, worldA', entityA, entityA', sessionA, camA, affId, lenA,
        updateDragTarget, dragImpulse, dragTargetPoint, dragTargetOffset, zoomFactor,
        dragPoint, Affine3.transformPoint3, Mat3.mulVec, Vec3.add, Vec3.sub, Vec3.smul,
        Vec3.clamp, Vec3.negOne, Vec3.one, GAIN, torqueImpulse, orthogonalVector,
        dragComOffset, Vec3.projectOnto, Vec3.dot, Vec3.cross, min_def, max_def])
